import Mathlib

/-!
Shallow embedding of the CodeStory authentication service
(`src/vs/workbench/services/csAccount/browser/csAuthenticationService.ts`)
and of the inline-edit value object
(`src/vs/editor/contrib/inlineCompletions/browser/model/inlineEdit.ts`).

Network responses, the URL-callback race and the secret-storage backend are
modelled as explicit inputs ("world" records); each service method becomes a
pure function from the service state and the world to the next state together
with the list of observable effects it performs (network requests,
notifications, event firings).
-/

/-- JSON-like values: the shape of the data that `JSON.stringify` writes into
the secret-storage slot and that `JSON.parse` reads back, and the shape of the
opaque user-profile record. -/
inductive Json where
  | str (s : String)
  | num (n : Nat)
  | obj (fields : List (String × Json))

/-- Modelled from the spec: the `CSAuthenticationSession` record (its type lives
in `platform/codestoryAccount/common/csAccount.ts`, which is not among the
reviewed files; the fields are those assembled at lines 109-115 and 135-141 of
the service and listed in spec section 3): stable identifier, access token,
refresh token, opaque account profile, waitlist position. -/
structure CSAuthenticationSession where
  id : String
  accessToken : String
  refreshToken : String
  account : Json
  waitlistPosition : Nat

/-- Modelled from the spec: the decoded token payload `{access_token,
refresh_token}` returned by the refresh endpoint (spec section 6). -/
structure EncodedCSTokenData where
  access_token : String
  refresh_token : String

/-- Modelled from the spec: the profile endpoint's response `{user,
waitlistPosition}` (spec section 6). -/
structure CSUserProfileResponse where
  user : Json
  waitlistPosition : Nat

/-- `JSON.stringify` applied to a session, at the level of JSON values:
the object written into the secret-storage slot by `setSession`. -/
def encodeSession (s : CSAuthenticationSession) : Json :=
  Json.obj [("id", Json.str s.id),
            ("accessToken", Json.str s.accessToken),
            ("refreshToken", Json.str s.refreshToken),
            ("account", s.account),
            ("waitlistPosition", Json.num s.waitlistPosition)]

/-- `JSON.parse` of the stored slot read back as a session (the source casts
the parsed object to `CSAuthenticationSession`; reading any other shape is
modelled as failure). -/
def decodeSession : Json → Option CSAuthenticationSession
  | Json.obj [(k1, Json.str i), (k2, Json.str a), (k3, Json.str r),
              (k4, acc), (k5, Json.num w)] =>
    if k1 = "id" ∧ k2 = "accessToken" ∧ k3 = "refreshToken" ∧
       k4 = "account" ∧ k5 = "waitlistPosition"
    then some { id := i, accessToken := a, refreshToken := r,
                account := acc, waitlistPosition := w }
    else none
  | _ => none

/-- The mutable state of `CSAuthenticationService`: the `_pendingStates` array,
the in-memory `_session` field, and the content of the single secret-storage
slot keyed by `SESSION_SECRET_KEY`. -/
structure ServiceState where
  pendingStates : List String
  session : Option CSAuthenticationSession
  storage : Option Json

/-- Observable side effects of the service methods: the two network requests,
the two user notifications, and the `_onDidAuthenticate` event firing. -/
inductive Effect where
  | fetchRefresh (refreshToken : String)
  | fetchProfile (accessToken : String)
  | notifyError
  | notifyWaitlist (position : Nat)
  | fireDidAuthenticate (session : CSAuthenticationSession)

/-- True exactly on the `_onDidAuthenticate` firing effect. -/
def Effect.isAuthEvent : Effect → Bool
  | Effect.fireDidAuthenticate _ => true
  | _ => false

/-- `getSession`: read the secret-storage slot and parse it (lines 228-231). -/
def getSession (st : ServiceState) : Option CSAuthenticationSession :=
  st.storage.bind decodeSession

/-- `setSession`: set the in-memory session and overwrite the whole storage
slot with its serialization (lines 151-154). -/
def setSession (s : CSAuthenticationSession) (st : ServiceState) : ServiceState :=
  { st with session := some s, storage := some (encodeSession s) }

/-- `deleteSession`: delete the secret-storage slot (lines 156-158). The
in-memory `_session` field is not touched by the source. -/
def deleteSession (st : ServiceState) : ServiceState :=
  { st with storage := none }

/-- Outcome of the POST to the refresh endpoint: a parsed token pair when
`response.ok`, a non-success HTTP status, or the fetch itself throwing. -/
inductive RefreshResponse where
  | ok (data : EncodedCSTokenData)
  | httpError
  | networkFailure

/-- Environment of one `refreshTokens` call: what the refresh endpoint answers
and what the subsequent profile fetch-and-parse yields (`none` when the fetch
or `JSON.parse` throws). -/
structure RefreshWorld where
  refreshResponse : RefreshResponse
  profile : Option CSUserProfileResponse

/-- `refreshTokens` (lines 71-120): no-op without an in-memory session;
otherwise POST the stored refresh token; on non-success status notify the user,
delete the stored session and throw (the throw is swallowed by the enclosing
catch); on success fetch the profile with the new access token and store a full
replacement session preserving the original identifier; any exception on the
profile path is swallowed, leaving the state unchanged. -/
def refreshTokens (st : ServiceState) (w : RefreshWorld) :
    ServiceState × List Effect :=
  match st.session with
  | none => (st, [])
  | some s =>
    match w.refreshResponse with
    | RefreshResponse.networkFailure =>
      (st, [Effect.fetchRefresh s.refreshToken])
    | RefreshResponse.httpError =>
      (deleteSession st, [Effect.fetchRefresh s.refreshToken, Effect.notifyError])
    | RefreshResponse.ok data =>
      match w.profile with
      | none =>
        (st, [Effect.fetchRefresh s.refreshToken,
              Effect.fetchProfile data.access_token])
      | some p =>
        (setSession { id := s.id,
                      accessToken := data.access_token,
                      refreshToken := data.refresh_token,
                      account := p.user,
                      waitlistPosition := p.waitlistPosition } st,
         [Effect.fetchRefresh s.refreshToken,
          Effect.fetchProfile data.access_token])

/-- A callback URI, reduced to its query string as a list of key-value pairs. -/
structure Uri where
  query : List (String × String)

/-- `URLSearchParams.get`: the value of the first pair with the given key. -/
def queryGet (q : List (String × String)) (key : String) : Option String :=
  (q.find? (fun p => p.1 = key)).map (fun p => p.2)

/-- `handleUri` (lines 218-226): read the `data` query parameter; the empty
string when it is missing. No other parameter (in particular `state`) is read. -/
def handleUri (uri : Uri) : String :=
  match queryGet uri.query "data" with
  | none => ""
  | some d => d

/-- Which arm of the three-way race inside `login` settles first: the
URL-callback handler, the 60-second timer, the user cancelling the progress
notification, or the handler rejecting. -/
inductive RaceOutcome where
  | callback (uri : Uri)
  | timeout
  | cancelled
  | handlerError

/-- Value of `Promise.race` in `login` (lines 203-207): the callback arm
resolves with `handleUri`'s result; the other arms reject (`none`). -/
def raceResult : RaceOutcome → Option String
  | RaceOutcome.callback uri => some (handleUri uri)
  | _ => none

/-- `login` (lines 160-216): push a fresh correlation identifier onto
`_pendingStates`, open the authorization URL (external effect), race the three
arms, and in the `finally` block filter the identifier back out of
`_pendingStates` on every exit path. Returns the race's resolution, `none`
when it rejected. -/
def login (st : ServiceState) (stateId : String) (outcome : RaceOutcome) :
    ServiceState × Option String :=
  let afterPush := { st with pendingStates := st.pendingStates ++ [stateId] }
  ({ afterPush with
      pendingStates := afterPush.pendingStates.filter (fun n => n ≠ stateId) },
   raceResult outcome)

/-- The merged result of `getUserInfo` (lines 238-255): profile fields spread
together with the decoded token pair. -/
structure UserInfo where
  user : Json
  waitlistPosition : Nat
  access_token : String
  refresh_token : String

/-- Environment of one `createSession` call past the login race: what
`getUserInfo` yields for a given encoded payload (`none` when base64 decoding,
parsing or the profile fetch throws). -/
structure CreateWorld where
  userInfo : String → Option UserInfo

/-- `createSession` (lines 122-149): run `login`; an empty (or rejected)
payload throws; otherwise resolve the user info, notify when waitlisted, build
a session with a fresh identifier, fire `_onDidAuthenticate`, persist via
`setSession` and return the session. A thrown error leaves `none` in the
result's third component. -/
def createSession (st : ServiceState) (stateId sessionId : String)
    (outcome : RaceOutcome) (w : CreateWorld) :
    ServiceState × List Effect × Option CSAuthenticationSession :=
  let loginStep := login st stateId outcome
  match loginStep.2 with
  | none => (loginStep.1, [], none)
  | some encodedTokenData =>
    if encodedTokenData = "" then
      (loginStep.1, [], none)
    else
      match w.userInfo encodedTokenData with
      | none => (loginStep.1, [], none)
      | some info =>
        let waitlistEffects :=
          if info.waitlistPosition > 0 then
            [Effect.notifyWaitlist info.waitlistPosition]
          else []
        let session : CSAuthenticationSession :=
          { id := sessionId,
            accessToken := info.access_token,
            refreshToken := info.refresh_token,
            account := info.user,
            waitlistPosition := info.waitlistPosition }
        (setSession session loginStep.1,
         waitlistEffects ++ [Effect.fireDidAuthenticate session],
         some session)

/-- A position range in the editor's text model, as carried by a
`SingleTextEdit` (the `Range` type of `common/core/range.ts`). -/
structure EditRange where
  startLineNumber : Nat
  startColumn : Nat
  endLineNumber : Nat
  endColumn : Nat
deriving DecidableEq

/-- The `SingleTextEdit` value imported by `inlineEdit.ts` from
`common/core/textEdit.ts` (not among the reviewed files): a range plus the
replacement text, with structural equality via its `equals` method. -/
structure SingleTextEdit where
  range : EditRange
  text : String
deriving DecidableEq

/-- `SingleTextEdit.equals`: component-wise comparison of range and text. -/
def SingleTextEdit.equals (a b : SingleTextEdit) : Bool :=
  decide (a.range = b.range) && decide (a.text = b.text)

/-- An opaque `Command` attached to an inline edit; the claims only need it as
an abstract value, modelled as its identifier string. -/
abbrev Command := String

/-- An `InlineCompletionItem` reference; `inlineEdit.ts` compares these with
JavaScript reference equality (===), modelled as equality of an opaque
reference handle. -/
structure InlineCompletionItem where
  handle : Nat
deriving DecidableEq

/-- The `InlineEdit` value object (`inlineEdit.ts`, lines 10-17). -/
structure InlineEdit where
  edit : SingleTextEdit
  isCollapsed : Bool
  renderExplicitly : Bool
  commands : List Command
  inlineCompletion : InlineCompletionItem

/-- `InlineEdit.equals` (lines 27-32): compares `edit` (via its `equals`),
`isCollapsed`, `renderExplicitly` and `inlineCompletion`; the `commands` field
does not appear. -/
def InlineEdit.equals (a b : InlineEdit) : Bool :=
  SingleTextEdit.equals a.edit b.edit
    && (a.isCollapsed == b.isCollapsed)
    && (a.renderExplicitly == b.renderExplicitly)
    && decide (a.inlineCompletion = b.inlineCompletion)

/-- A concrete opaque account profile used by the concrete instances below. -/
def sampleAccount : Json :=
  Json.obj [("email", Json.str "user")]

/-- A concrete stored session. -/
def sampleSession : CSAuthenticationSession :=
  { id := "a", accessToken := "A1", refreshToken := "r1",
    account := sampleAccount, waitlistPosition := 0 }

/-- A concrete authenticated service state: `sampleSession` both in memory and
persisted. -/
def sampleState : ServiceState :=
  { pendingStates := [], session := some sampleSession,
    storage := some (encodeSession sampleSession) }

/-- A concrete service state with no in-memory session. -/
def emptyMemoryState : ServiceState :=
  { pendingStates := [], session := none,
    storage := some (encodeSession sampleSession) }

/-- A concrete token pair returned by the refresh endpoint. -/
def sampleTokens : EncodedCSTokenData :=
  { access_token := "A2", refresh_token := "r2" }

/-- A concrete profile-endpoint response. -/
def sampleProfile : CSUserProfileResponse :=
  { user := sampleAccount, waitlistPosition := 0 }

/-- A refresh world where both endpoints succeed. -/
def refreshOkWorld : RefreshWorld :=
  { refreshResponse := RefreshResponse.ok sampleTokens,
    profile := some sampleProfile }

/-- A refresh world where the refresh endpoint answers a non-success status. -/
def refresh401World : RefreshWorld :=
  { refreshResponse := RefreshResponse.httpError, profile := none }

/-- A refresh world where the token refresh succeeds but the profile fetch
fails. -/
def refreshProfileFailWorld : RefreshWorld :=
  { refreshResponse := RefreshResponse.ok sampleTokens, profile := none }

/-- A callback URI carrying no `data` query parameter. -/
def noDataUri : Uri :=
  { query := [("state", "s1")] }

/-- A callback URI whose `state` does not match the pending identifier `s1`
but which carries a `data` payload. -/
def mismatchedStateUri : Uri :=
  { query := [("state", "attacker"), ("data", "payload")] }

/-- A create world where `getUserInfo` always fails. -/
def noUserInfoWorld : CreateWorld :=
  { userInfo := fun _ => none }

/-- Parsing the serialized form of a session recovers the session: the
round trip through the storage slot is the identity. -/
theorem decodeSession_encodeSession (s : CSAuthenticationSession) :
    decodeSession (encodeSession s) = some s := by
  simp [encodeSession, decodeSession]

/-- Claim C1: for every authenticated session, a successful `refreshTokens`
stores a full replacement session whose identifier equals the original
session's identifier and whose access token and refresh token are both taken
from the refresh endpoint's response — the token pair is replaced together,
both in the in-memory field and in the persisted slot. -/
theorem refreshTokens_success_replaces_token_pair
    (st : ServiceState) (s : CSAuthenticationSession) (w : RefreshWorld)
    (d : EncodedCSTokenData) (p : CSUserProfileResponse)
    (hs : st.session = some s) (hr : w.refreshResponse = RefreshResponse.ok d)
    (hp : w.profile = some p) :
    (refreshTokens st w).1.session =
      some { id := s.id, accessToken := d.access_token,
             refreshToken := d.refresh_token, account := p.user,
             waitlistPosition := p.waitlistPosition } ∧
    (refreshTokens st w).1.storage =
      some (encodeSession
        { id := s.id, accessToken := d.access_token,
          refreshToken := d.refresh_token, account := p.user,
          waitlistPosition := p.waitlistPosition }) := by
  simp [refreshTokens, hs, hr, hp, setSession]

/-- Witness for C1 at the spec's concrete scenario: session `id = a`,
refresh endpoint returns `A2`/`r2`. -/
theorem refreshTokens_success_replaces_token_pair_witness :
    sampleState.session = some sampleSession ∧
    refreshOkWorld.refreshResponse = RefreshResponse.ok sampleTokens ∧
    refreshOkWorld.profile = some sampleProfile ∧
    ((refreshTokens sampleState refreshOkWorld).1.session =
      some { id := sampleSession.id, accessToken := sampleTokens.access_token,
             refreshToken := sampleTokens.refresh_token,
             account := sampleProfile.user,
             waitlistPosition := sampleProfile.waitlistPosition } ∧
     (refreshTokens sampleState refreshOkWorld).1.storage =
      some (encodeSession
        { id := sampleSession.id, accessToken := sampleTokens.access_token,
          refreshToken := sampleTokens.refresh_token,
          account := sampleProfile.user,
          waitlistPosition := sampleProfile.waitlistPosition })) :=
  ⟨rfl, rfl, rfl,
   refreshTokens_success_replaces_token_pair sampleState sampleSession
     refreshOkWorld sampleTokens sampleProfile rfl rfl rfl⟩

/-- Claim C2: with a stored session, a non-success HTTP status from the
refresh endpoint makes `refreshTokens` notify the user and delete the stored
session, after which `getSession` returns `none`; and this is the only failure
kind that mutates persisted state — any run that changes the storage slot is
either the HTTP-error deletion or a fully successful refresh. -/
theorem refreshTokens_httpError_deletes_stored_session
    (st : ServiceState) (s : CSAuthenticationSession) (w : RefreshWorld)
    (hs : st.session = some s) :
    (w.refreshResponse = RefreshResponse.httpError →
      (refreshTokens st w).1 = deleteSession st ∧
      Effect.notifyError ∈ (refreshTokens st w).2 ∧
      getSession (refreshTokens st w).1 = none) ∧
    ((refreshTokens st w).1.storage ≠ st.storage →
      w.refreshResponse = RefreshResponse.httpError ∨
      ∃ d p, w.refreshResponse = RefreshResponse.ok d ∧ w.profile = some p) := by
  constructor
  · intro hw
    simp [refreshTokens, hs, hw, deleteSession, getSession]
  · intro hmut
    cases hr : w.refreshResponse with
    | httpError => exact Or.inl rfl
    | networkFailure =>
      simp [refreshTokens, hs, hr] at hmut
    | ok d =>
      cases hp : w.profile with
      | none => simp [refreshTokens, hs, hr, hp] at hmut
      | some p => exact Or.inr ⟨d, p, rfl, rfl⟩

/-- Witness for C2: the authenticated sample state against a 401 world. -/
theorem refreshTokens_httpError_deletes_stored_session_witness :
    sampleState.session = some sampleSession ∧
    ((refresh401World.refreshResponse = RefreshResponse.httpError →
      (refreshTokens sampleState refresh401World).1 = deleteSession sampleState ∧
      Effect.notifyError ∈ (refreshTokens sampleState refresh401World).2 ∧
      getSession (refreshTokens sampleState refresh401World).1 = none) ∧
     ((refreshTokens sampleState refresh401World).1.storage ≠ sampleState.storage →
      refresh401World.refreshResponse = RefreshResponse.httpError ∨
      ∃ d p, refresh401World.refreshResponse = RefreshResponse.ok d ∧
             refresh401World.profile = some p)) :=
  ⟨rfl,
   refreshTokens_httpError_deletes_stored_session sampleState sampleSession
     refresh401World rfl⟩

/-- Claim C4: for every `login` attempt and every outcome of the race
(callback, timeout, cancellation or handler error), the correlation identifier
pushed onto the pending set at the start is no longer in the pending set when
the attempt finishes. -/
theorem login_removes_pending_identifier
    (st : ServiceState) (stateId : String) (outcome : RaceOutcome) :
    stateId ∉ (login st stateId outcome).1.pendingStates := by
  simp [login, List.mem_filter]

/-- Claim C9: reading the session back immediately after storing it returns a
value equal to the stored session — the serialize/parse round trip through the
secret-storage slot preserves the record. -/
theorem getSession_after_setSession
    (s : CSAuthenticationSession) (st : ServiceState) :
    getSession (setSession s st) = some s := by
  simp [getSession, setSession, decodeSession_encodeSession]

/-- Claim C10: `InlineEdit.equals` ignores the `commands` field — two values
agreeing on `edit`, `isCollapsed`, `renderExplicitly` and `inlineCompletion`
compare equal even when their `commands` differ. -/
theorem inlineEdit_equals_ignores_commands
    (a b : InlineEdit)
    (he : a.edit = b.edit) (hc : a.isCollapsed = b.isCollapsed)
    (hr : a.renderExplicitly = b.renderExplicitly)
    (hi : a.inlineCompletion = b.inlineCompletion)
    (_hcmd : a.commands ≠ b.commands) :
    InlineEdit.equals a b = true := by
  simp [InlineEdit.equals, SingleTextEdit.equals, he, hc, hr, hi]

/-- A concrete single text edit shared by the inline-edit instances below. -/
def sampleTextEdit : SingleTextEdit :=
  { range := { startLineNumber := 1, startColumn := 1,
               endLineNumber := 1, endColumn := 5 },
    text := "hello" }

/-- A concrete inline edit carrying command `cmdA`. -/
def sampleInlineEditA : InlineEdit :=
  { edit := sampleTextEdit, isCollapsed := false, renderExplicitly := true,
    commands := ["cmdA"], inlineCompletion := { handle := 7 } }

/-- The same inline edit as `sampleInlineEditA` except for its commands. -/
def sampleInlineEditB : InlineEdit :=
  { edit := sampleTextEdit, isCollapsed := false, renderExplicitly := true,
    commands := ["cmdB"], inlineCompletion := { handle := 7 } }

/-- Witness for C10: two concrete inline edits differing only in `commands`
compare equal. -/
theorem inlineEdit_equals_ignores_commands_witness :
    sampleInlineEditA.edit = sampleInlineEditB.edit ∧
    sampleInlineEditA.isCollapsed = sampleInlineEditB.isCollapsed ∧
    sampleInlineEditA.renderExplicitly = sampleInlineEditB.renderExplicitly ∧
    sampleInlineEditA.inlineCompletion = sampleInlineEditB.inlineCompletion ∧
    sampleInlineEditA.commands ≠ sampleInlineEditB.commands ∧
    InlineEdit.equals sampleInlineEditA sampleInlineEditB = true :=
  ⟨rfl, rfl, rfl, rfl, by decide,
   inlineEdit_equals_ignores_commands sampleInlineEditA sampleInlineEditB
     rfl rfl rfl rfl (by decide)⟩

/-- Claim C3: `_onDidAuthenticate` fires exactly once per `createSession` call
that returns successfully, zero times on a failed call, and `refreshTokens`
never fires it. -/
theorem onDidAuthenticate_fires_once_per_successful_createSession :
    ∀ (st : ServiceState) (stateId sessionId : String) (outcome : RaceOutcome)
      (w : CreateWorld) (st' : ServiceState) (w' : RefreshWorld),
      (createSession st stateId sessionId outcome w).2.1.countP
          Effect.isAuthEvent =
        (if (createSession st stateId sessionId outcome w).2.2.isSome
         then 1 else 0) ∧
      (refreshTokens st' w').2.countP Effect.isAuthEvent = 0 := by
  intro st stateId sessionId outcome w st' w'
  constructor
  · cases outcome with
    | callback uri =>
      by_cases h : handleUri uri = ""
      · simp [createSession, login, raceResult, h]
      · cases hui : w.userInfo (handleUri uri) with
        | none => simp [createSession, login, raceResult, h, hui]
        | some info =>
          by_cases hw : info.waitlistPosition > 0
          · simp [createSession, login, raceResult, h, hui, hw,
                  Effect.isAuthEvent]
          · simp [createSession, login, raceResult, h, hui, hw,
                  Effect.isAuthEvent]
    | timeout => simp [createSession, login, raceResult]
    | cancelled => simp [createSession, login, raceResult]
    | handlerError => simp [createSession, login, raceResult]
  · cases hs : st'.session with
    | none => simp [refreshTokens, hs]
    | some s =>
      cases hr : w'.refreshResponse with
      | networkFailure => simp [refreshTokens, hs, hr, Effect.isAuthEvent]
      | httpError => simp [refreshTokens, hs, hr, Effect.isAuthEvent]
      | ok d =>
        cases hp : w'.profile with
        | none => simp [refreshTokens, hs, hr, hp, Effect.isAuthEvent]
        | some p => simp [refreshTokens, hs, hr, hp, Effect.isAuthEvent]

/-- Counterexample to claim C5 as stated: at a concrete authenticated state,
`refreshTokens` right after `deleteSession` is not a no-op — it still performs
network requests and even re-persists a session, because `deleteSession` does
not clear the in-memory `_session` field. -/
theorem deleteSession_then_refreshTokens_not_noop :
    (refreshTokens (deleteSession sampleState) refreshOkWorld).2 ≠ [] ∧
    (refreshTokens (deleteSession sampleState) refreshOkWorld).1.storage ≠
      (deleteSession sampleState).storage := by
  constructor
  · simp [refreshTokens, deleteSession, sampleState, refreshOkWorld]
  · simp [refreshTokens, deleteSession, sampleState, refreshOkWorld, setSession]

/-- Claim C5 as amended: after `deleteSession`, `getSession` returns absent;
and `refreshTokens` is a no-op (no request, no notification, no state change)
when the in-memory session is also absent — `deleteSession` itself does not
clear the in-memory session. -/
theorem deleteSession_refreshTokens_noop_without_memory_session
    (st : ServiceState) (w : RefreshWorld) (h : st.session = none) :
    getSession (deleteSession st) = none ∧
    refreshTokens (deleteSession st) w = (deleteSession st, []) := by
  constructor
  · simp [getSession, deleteSession]
  · simp [refreshTokens, deleteSession, h]

/-- Witness for amended C5: a state whose in-memory session is absent. -/
theorem deleteSession_refreshTokens_noop_without_memory_session_witness :
    emptyMemoryState.session = none ∧
    (getSession (deleteSession emptyMemoryState) = none ∧
     refreshTokens (deleteSession emptyMemoryState) refreshOkWorld =
       (deleteSession emptyMemoryState, [])) :=
  ⟨rfl,
   deleteSession_refreshTokens_noop_without_memory_session emptyMemoryState
     refreshOkWorld rfl⟩

/-- Claim C6: a callback URI with no `data` query parameter makes `login`
resolve to the empty string, `createSession` then fails (returns nothing), and
neither the in-memory session nor the persisted slot changes, so `getSession`
afterwards returns what it returned before the attempt. -/
theorem callback_without_data_fails_createSession
    (st : ServiceState) (stateId sessionId : String) (uri : Uri)
    (w : CreateWorld) (h : queryGet uri.query "data" = none) :
    (login st stateId (RaceOutcome.callback uri)).2 = some "" ∧
    (createSession st stateId sessionId (RaceOutcome.callback uri) w).2.2 =
      none ∧
    (createSession st stateId sessionId (RaceOutcome.callback uri) w).1.storage =
      st.storage ∧
    (createSession st stateId sessionId (RaceOutcome.callback uri) w).1.session =
      st.session ∧
    getSession
        (createSession st stateId sessionId (RaceOutcome.callback uri) w).1 =
      getSession st := by
  have hu : handleUri uri = "" := by simp [handleUri, h]
  refine ⟨?_, ?_, ?_, ?_, ?_⟩ <;>
    simp [createSession, login, raceResult, hu, getSession]

/-- Witness for C6: the `state`-only callback URI against the authenticated
sample state. -/
theorem callback_without_data_fails_createSession_witness :
    queryGet noDataUri.query "data" = none ∧
    ((login sampleState "s1" (RaceOutcome.callback noDataUri)).2 = some "" ∧
     (createSession sampleState "s1" "b" (RaceOutcome.callback noDataUri)
        noUserInfoWorld).2.2 = none ∧
     (createSession sampleState "s1" "b" (RaceOutcome.callback noDataUri)
        noUserInfoWorld).1.storage = sampleState.storage ∧
     (createSession sampleState "s1" "b" (RaceOutcome.callback noDataUri)
        noUserInfoWorld).1.session = sampleState.session ∧
     getSession (createSession sampleState "s1" "b"
        (RaceOutcome.callback noDataUri) noUserInfoWorld).1 =
       getSession sampleState) :=
  ⟨rfl,
   callback_without_data_fails_createSession sampleState "s1" "b" noDataUri
     noUserInfoWorld rfl⟩

/-- Claim C7 evaluated on the code at a failing input: with pending correlation
identifier `s1`, a callback whose `state` parameter is `attacker` — and even a
callback carrying no `state` at all — still resolves the login attempt with its
`data` payload, because `handleUri` never reads the `state` parameter; the
recorded pending identifiers are never consulted. -/
theorem login_resolves_despite_state_mismatch :
    ("attacker" : String) ≠ "s1" ∧
    (login { pendingStates := [], session := none, storage := none } "s1"
        (RaceOutcome.callback mismatchedStateUri)).2 = some "payload" ∧
    (login { pendingStates := [], session := none, storage := none } "s1"
        (RaceOutcome.callback { query := [("data", "payload")] })).2 =
      some "payload" := by
  refine ⟨by decide, ?_, ?_⟩ <;> rfl

/-- Claim C8: if the profile fetch or its parsing fails after a successful
token refresh, `refreshTokens` returns normally with the state unchanged —
the new token pair is not persisted and no notification is raised; the only
effects are the two attempted requests. -/
theorem refreshTokens_profile_failure_swallowed
    (st : ServiceState) (s : CSAuthenticationSession) (w : RefreshWorld)
    (d : EncodedCSTokenData) (hs : st.session = some s)
    (hr : w.refreshResponse = RefreshResponse.ok d) (hp : w.profile = none) :
    refreshTokens st w =
      (st, [Effect.fetchRefresh s.refreshToken,
            Effect.fetchProfile d.access_token]) := by
  simp [refreshTokens, hs, hr, hp]

/-- Witness for C8: the authenticated sample state against a world whose
profile fetch fails. -/
theorem refreshTokens_profile_failure_swallowed_witness :
    sampleState.session = some sampleSession ∧
    refreshProfileFailWorld.refreshResponse =
      RefreshResponse.ok sampleTokens ∧
    refreshProfileFailWorld.profile = none ∧
    refreshTokens sampleState refreshProfileFailWorld =
      (sampleState, [Effect.fetchRefresh sampleSession.refreshToken,
                     Effect.fetchProfile sampleTokens.access_token]) :=
  ⟨rfl, rfl, rfl,
   refreshTokens_profile_failure_swallowed sampleState sampleSession
     refreshProfileFailWorld sampleTokens rfl rfl rfl⟩
